import Mathlib

/-!
Verification of the graphton sandbox-backend selection layer.

The factory `create_sandbox_backend` (src/graphton/core/sandbox_factory.py)
is embedded shallowly: Python values relevant to the configuration mapping
become the inductive `PyVal`, Python exceptions become the inductive
`PyError`, and the factory becomes a total Lean function returning
`Except PyError FilesystemBackend`.

The filesystem backend implementation itself (graphton.core.backends.filesystem)
is not part of the visible sources (only its tests are), so its execution and
file-operation semantics are modelled from the specification; those definitions
carry a `Modelled from the spec:` doc comment.
-/

set_option maxRecDepth 16384

/-- A shallow model of the Python values a sandbox configuration can hold:
strings, integers, booleans, None, string-keyed dictionaries and lists. -/
inductive PyVal where
  | pstr (s : String)
  | pint (n : Int)
  | pbool (b : Bool)
  | pnone
  | pdict (entries : List (String × PyVal))
  | plist (xs : List PyVal)

/-- Python truthiness (`if not backend_type`): None, empty string, zero,
False, empty dict and empty list are falsy. -/
def pyFalsy : PyVal → Bool
  | PyVal.pstr s => s.isEmpty
  | PyVal.pint n => n == 0
  | PyVal.pbool b => !b
  | PyVal.pnone => true
  | PyVal.pdict es => es.isEmpty
  | PyVal.plist xs => xs.isEmpty

/-- Python `type(x).__name__`, used by the factory in its non-mapping
error message. -/
def pyTypeName : PyVal → String
  | PyVal.pstr _ => "str"
  | PyVal.pint _ => "int"
  | PyVal.pbool _ => "bool"
  | PyVal.pnone => "NoneType"
  | PyVal.pdict _ => "dict"
  | PyVal.plist _ => "list"

/-- Python `str(x)` for the values an f-string can interpolate; containers
are rendered only approximately (the factory interpolates the discriminator
value, which in practice is a scalar). -/
def pyStr : PyVal → String
  | PyVal.pstr s => s
  | PyVal.pint n => toString n
  | PyVal.pbool b => if b then "True" else "False"
  | PyVal.pnone => "None"
  | PyVal.pdict _ => "dict"
  | PyVal.plist _ => "list"

/-- Python `v == s` where `s` is a string literal, as in the factory's
dispatch (`backend_type == "filesystem"` etc.): among the built-in types
`PyVal` models, only an equal `str` compares equal to a `str` literal. -/
def pyEqStr (v : PyVal) (s : String) : Bool :=
  match v with
  | PyVal.pstr a => a == s
  | _ => false

/-- Python `dict.get(key, default)` on a string-keyed mapping, modelled on
an association list (Python dicts have unique keys, so first-match lookup
coincides with dict lookup). -/
def pyDictGet (entries : List (String × PyVal)) (key : String) (default : PyVal) :
    PyVal :=
  match entries.lookup key with
  | some v => v
  | none => default

/-- The Python exception classes this development distinguishes.  The
factory only ever raises `ValueError`; the other constructors exist so that
"raises ValueError and no other exception type" is a contentful statement. -/
inductive PyError where
  | valueError (msg : String)
  | typeError (msg : String)
  | keyError (msg : String)
deriving DecidableEq

/-- Whether a `PyError` is a `ValueError`. -/
def PyError.isValueError : PyError → Bool
  | PyError.valueError _ => true
  | _ => false

/-- The result of the `filesystem` branch: a `FilesystemBackend` records
the `root_dir` value it was constructed with (the constructor itself lives
in the external `deepagents` library). -/
structure FilesystemBackend where
  root_dir : PyVal

/-- Error message of the factory for a non-mapping input
(`sandbox_config must be a dictionary, got {type(config).__name__}`). -/
def not_dict_msg (config : PyVal) : String :=
  "sandbox_config must be a dictionary, got " ++ pyTypeName config

/-- Error message of the factory for a missing or falsy `type` key. -/
def missing_type_msg : String :=
  "sandbox_config must include \x27type\x27 key. Supported types: filesystem, modal, runloop, daytona, harbor"

/-- Error message of the factory for a recognized-but-unimplemented kind
(`{Kind} sandbox support coming soon. ...`). -/
def coming_soon_msg (kindName : String) : String :=
  kindName ++ " sandbox support coming soon. For now, use \x27filesystem\x27 type for local execution."

/-- Error message of the factory for an unrecognized discriminator value. -/
def unsupported_msg (backend_type : PyVal) : String :=
  "Unsupported sandbox type: " ++ pyStr backend_type ++ ". Supported types: filesystem, modal, runloop, daytona, harbor"

/-- Shallow embedding of `create_sandbox_backend`
(src/graphton/core/sandbox_factory.py, lines 55-103): the `isinstance`
check, the falsy-`type` check, the five-way string dispatch and the final
unsupported-kind branch, each raise mirrored as `Except.error`. -/
def create_sandbox_backend (config : PyVal) : Except PyError FilesystemBackend :=
  match config with
  | PyVal.pdict entries =>
    let backend_type := pyDictGet entries "type" PyVal.pnone
    if pyFalsy backend_type then
      Except.error (PyError.valueError missing_type_msg)
    else if pyEqStr backend_type "filesystem" then
      Except.ok { root_dir := pyDictGet entries "root_dir" (PyVal.pstr ".") }
    else if pyEqStr backend_type "modal" then
      Except.error (PyError.valueError (coming_soon_msg "Modal"))
    else if pyEqStr backend_type "runloop" then
      Except.error (PyError.valueError (coming_soon_msg "Runloop"))
    else if pyEqStr backend_type "daytona" then
      Except.error (PyError.valueError (coming_soon_msg "Daytona"))
    else if pyEqStr backend_type "harbor" then
      Except.error (PyError.valueError (coming_soon_msg "Harbor"))
    else
      Except.error (PyError.valueError (unsupported_msg backend_type))
  | other => Except.error (PyError.valueError (not_dict_msg other))

/-- Whether an `Except` result of the factory is a normal return. -/
def exceptIsOk : Except PyError FilesystemBackend → Bool
  | Except.ok _ => true
  | Except.error _ => false

/-- Python `dict.get` as a state operation: it returns the looked-up value
together with the dictionary afterwards, which `dict.get` leaves unchanged. -/
def pyDictGetSt (entries : List (String × PyVal)) (key : String) (default : PyVal) :
    PyVal × List (String × PyVal) :=
  (pyDictGet entries key default, entries)

/-- `create_sandbox_backend` with the configuration dictionary threaded as
state through every operation the factory performs on it, so that
non-mutation of the input is expressible: the second component is the
configuration value as the factory leaves it. -/
def create_sandbox_backend_st (config : PyVal) :
    Except PyError FilesystemBackend × PyVal :=
  match config with
  | PyVal.pdict entries =>
    let r1 := pyDictGetSt entries "type" PyVal.pnone
    let backend_type := r1.1
    let entries1 := r1.2
    if pyFalsy backend_type then
      (Except.error (PyError.valueError missing_type_msg), PyVal.pdict entries1)
    else if pyEqStr backend_type "filesystem" then
      let r2 := pyDictGetSt entries1 "root_dir" (PyVal.pstr ".")
      (Except.ok { root_dir := r2.1 }, PyVal.pdict r2.2)
    else if pyEqStr backend_type "modal" then
      (Except.error (PyError.valueError (coming_soon_msg "Modal")), PyVal.pdict entries1)
    else if pyEqStr backend_type "runloop" then
      (Except.error (PyError.valueError (coming_soon_msg "Runloop")), PyVal.pdict entries1)
    else if pyEqStr backend_type "daytona" then
      (Except.error (PyError.valueError (coming_soon_msg "Daytona")), PyVal.pdict entries1)
    else if pyEqStr backend_type "harbor" then
      (Except.error (PyError.valueError (coming_soon_msg "Harbor")), PyVal.pdict entries1)
    else
      (Except.error (PyError.valueError (unsupported_msg backend_type)), PyVal.pdict entries1)
  | other => (Except.error (PyError.valueError (not_dict_msg other)), other)

namespace Filesystem

/-- Modelled from the spec: the `ExecutionResult` record of the filesystem
backend (`graphton.core.backends.filesystem`, not under the visible
sources): `{exit_code: integer, stdout: text, stderr: text}`. -/
structure ExecutionResult where
  exit_code : Int
  stdout : String
  stderr : String
deriving DecidableEq

/-- Modelled from the spec: what the host shell would do with a command,
were it allowed to run to completion — its real exit status, the streams
it would produce, and how long it would take (abstract time units). -/
structure ShellRun where
  exit_code : Int
  stdout : String
  stderr : String
  duration : Nat
deriving DecidableEq

/-- Modelled from the spec: the stderr text the backend reports on
timeout ("an stderr message indicating the command timed out"). -/
def timeout_msg (t : Nat) : String :=
  "Command timed out after " ++ toString t ++ " seconds"

/-- Modelled from the spec: `execute(command, timeout)` of the filesystem
backend (`graphton.core.backends.filesystem`, not under the visible
sources).  The host shell is an oracle `shell : String → ShellRun`.  A run
that finishes within the timeout is reported verbatim (exit code, stdout,
stderr); a run that exceeds the timeout is terminated and reported as
exit code 124 with a timed-out stderr message.  The function is total:
ordinary command failures are communicated only through the returned
record, never raised. -/
def execute (shell : String → ShellRun) (command : String)
    (timeout : Option Nat) : ExecutionResult :=
  let run := shell command
  match timeout with
  | none =>
    { exit_code := run.exit_code, stdout := run.stdout, stderr := run.stderr }
  | some t =>
    if t < run.duration then
      { exit_code := 124, stdout := "", stderr := timeout_msg t }
    else
      { exit_code := run.exit_code, stdout := run.stdout, stderr := run.stderr }

/-- Modelled from the spec: the shell's behaviour on a command whose name
cannot be resolved — it finishes immediately with exit status 127 and a
command-not-found diagnostic. -/
def unresolvedRun (command : String) : ShellRun :=
  { exit_code := 127, stdout := "",
    stderr := "/bin/sh: " ++ command ++ ": command not found", duration := 0 }

/-- Modelled from the spec: the file contents under the backend's root,
as a relative-path-to-content association (one entry per file). -/
def FsState : Type := List (String × String)

/-- Modelled from the spec: `write_file(relative_path, text)` — writes the
content at the path, overwriting any existing entry. -/
def write_file (fs : FsState) (path content : String) : FsState :=
  (path, content) :: List.filter (fun e => e.1 != path) fs

/-- Modelled from the spec: `read_file(relative_path)` — returns the full
contents of the file at the path, if present. -/
def read_file (fs : FsState) (path : String) : Option String :=
  List.lookup path fs

/-- Modelled from the spec: `list_files()` — the relative paths of the
entries under the root. -/
def list_files (fs : FsState) : List String :=
  List.map Prod.fst fs

end Filesystem

/-- C1: for every configuration dictionary whose `type` value equals
"filesystem", `create_sandbox_backend` returns (does not raise) a
`FilesystemBackend` rooted at the value of the optional `root_dir` field,
and when `root_dir` is absent the root defaults to ".". -/
theorem create_sandbox_backend_filesystem (entries : List (String × PyVal))
    (h : pyDictGet entries "type" PyVal.pnone = PyVal.pstr "filesystem") :
    create_sandbox_backend (PyVal.pdict entries) =
      Except.ok { root_dir := pyDictGet entries "root_dir" (PyVal.pstr ".") } ∧
    (List.lookup "root_dir" entries = none →
      create_sandbox_backend (PyVal.pdict entries) =
        Except.ok { root_dir := PyVal.pstr "." }) := by
  have hmain : create_sandbox_backend (PyVal.pdict entries) =
      Except.ok { root_dir := pyDictGet entries "root_dir" (PyVal.pstr ".") } := by
    simp only [create_sandbox_backend, h]
    rw [if_neg (by decide), if_pos (by decide)]
  refine ⟨hmain, fun h2 => ?_⟩
  rw [hmain]
  simp [pyDictGet, h2]

theorem create_sandbox_backend_filesystem_witness :
    create_sandbox_backend (PyVal.pdict [("type", PyVal.pstr "filesystem")]) =
      Except.ok { root_dir := PyVal.pstr "." } :=
  (create_sandbox_backend_filesystem [("type", PyVal.pstr "filesystem")] rfl).2 rfl

/-- C4: for every dictionary that lacks the `type` key or whose `type`
value is falsy, `create_sandbox_backend` fails with an error whose message
lists the supported kinds (filesystem, modal, runloop, daytona, harbor). -/
theorem create_sandbox_backend_missing_type (entries : List (String × PyVal))
    (h : List.lookup "type" entries = none ∨
      pyFalsy (pyDictGet entries "type" PyVal.pnone) = true) :
    create_sandbox_backend (PyVal.pdict entries) =
      Except.error (PyError.valueError missing_type_msg) ∧
    ∀ k ∈ ["filesystem", "modal", "runloop", "daytona", "harbor"],
      k.toList <:+: missing_type_msg.toList := by
  have hf : pyFalsy (pyDictGet entries "type" PyVal.pnone) = true := by
    rcases h with h | h
    · simp [pyDictGet, h, pyFalsy]
    · exact h
  refine ⟨?_, by decide⟩
  simp only [create_sandbox_backend]
  rw [if_pos hf]

theorem create_sandbox_backend_missing_type_witness :
    create_sandbox_backend (PyVal.pdict []) =
      Except.error (PyError.valueError missing_type_msg) ∧
    ∀ k ∈ ["filesystem", "modal", "runloop", "daytona", "harbor"],
      k.toList <:+: missing_type_msg.toList :=
  create_sandbox_backend_missing_type [] (Or.inl rfl)

/-- C5: for every dictionary whose non-empty string `type` value is not one
of the recognized kinds, `create_sandbox_backend` fails with an
"unsupported kind" error whose message enumerates the valid kinds. -/
theorem create_sandbox_backend_unsupported (entries : List (String × PyVal))
    (s : String)
    (h : pyDictGet entries "type" PyVal.pnone = PyVal.pstr s)
    (hne : s ≠ "")
    (hnot : s ∉ ["filesystem", "modal", "runloop", "daytona", "harbor"]) :
    create_sandbox_backend (PyVal.pdict entries) =
      Except.error (PyError.valueError (unsupported_msg (PyVal.pstr s))) ∧
    ∀ k ∈ ["filesystem", "modal", "runloop", "daytona", "harbor"],
      k.toList <:+: (unsupported_msg (PyVal.pstr s)).toList := by
  simp only [List.mem_cons, List.not_mem_nil, or_false, not_or] at hnot
  obtain ⟨h1, h2, h3, h4, h5⟩ := hnot
  have hfal : ¬ pyFalsy (PyVal.pstr s) = true :=
    fun hc => hne ((String.isEmpty_iff s).mp hc)
  have hf : ¬ pyEqStr (PyVal.pstr s) "filesystem" = true := by
    simpa [pyEqStr] using h1
  have hm : ¬ pyEqStr (PyVal.pstr s) "modal" = true := by
    simpa [pyEqStr] using h2
  have hr : ¬ pyEqStr (PyVal.pstr s) "runloop" = true := by
    simpa [pyEqStr] using h3
  have hd : ¬ pyEqStr (PyVal.pstr s) "daytona" = true := by
    simpa [pyEqStr] using h4
  have hh : ¬ pyEqStr (PyVal.pstr s) "harbor" = true := by
    simpa [pyEqStr] using h5
  constructor
  · simp only [create_sandbox_backend, h]
    rw [if_neg hfal, if_neg hf, if_neg hm, if_neg hr, if_neg hd, if_neg hh]
  · intro k hk
    have hsplit : (unsupported_msg (PyVal.pstr s)).toList
        = "Unsupported sandbox type: ".toList ++ s.toList
          ++ ". Supported types: filesystem, modal, runloop, daytona, harbor".toList := by
      simp [unsupported_msg, pyStr, String.toList, String.data_append]
    rw [hsplit]
    have htail : k.toList <:+:
        ". Supported types: filesystem, modal, runloop, daytona, harbor".toList := by
      fin_cases hk <;> decide
    exact htail.trans (List.suffix_append _ _).isInfix

theorem create_sandbox_backend_unsupported_witness :
    create_sandbox_backend (PyVal.pdict [("type", PyVal.pstr "bogus")]) =
      Except.error (PyError.valueError (unsupported_msg (PyVal.pstr "bogus"))) ∧
    ∀ k ∈ ["filesystem", "modal", "runloop", "daytona", "harbor"],
      k.toList <:+: (unsupported_msg (PyVal.pstr "bogus")).toList :=
  create_sandbox_backend_unsupported [("type", PyVal.pstr "bogus")] "bogus" rfl
    (by decide) (by decide)

/-- C6: for each of the recognized-but-unimplemented kinds modal, runloop,
daytona and harbor, `create_sandbox_backend` fails with an error stating
the feature is not yet available ("coming soon") and suggesting the
filesystem kind as a fallback. -/
theorem create_sandbox_backend_unimplemented (k : String)
    (hk : k ∈ ["modal", "runloop", "daytona", "harbor"])
    (entries : List (String × PyVal))
    (h : pyDictGet entries "type" PyVal.pnone = PyVal.pstr k) :
    ∃ msg, create_sandbox_backend (PyVal.pdict entries) =
        Except.error (PyError.valueError msg) ∧
      "coming soon".toList <:+: msg.toList ∧
      "filesystem".toList <:+: msg.toList := by
  fin_cases hk
  · refine ⟨coming_soon_msg "Modal", ?_, by decide, by decide⟩
    simp only [create_sandbox_backend, h]
    rw [if_neg (by decide), if_neg (by decide), if_pos (by decide)]
  · refine ⟨coming_soon_msg "Runloop", ?_, by decide, by decide⟩
    simp only [create_sandbox_backend, h]
    rw [if_neg (by decide), if_neg (by decide), if_neg (by decide),
      if_pos (by decide)]
  · refine ⟨coming_soon_msg "Daytona", ?_, by decide, by decide⟩
    simp only [create_sandbox_backend, h]
    rw [if_neg (by decide), if_neg (by decide), if_neg (by decide),
      if_neg (by decide), if_pos (by decide)]
  · refine ⟨coming_soon_msg "Harbor", ?_, by decide, by decide⟩
    simp only [create_sandbox_backend, h]
    rw [if_neg (by decide), if_neg (by decide), if_neg (by decide),
      if_neg (by decide), if_neg (by decide), if_pos (by decide)]

theorem create_sandbox_backend_unimplemented_witness :
    ∃ msg, create_sandbox_backend (PyVal.pdict [("type", PyVal.pstr "modal")]) =
        Except.error (PyError.valueError msg) ∧
      "coming soon".toList <:+: msg.toList ∧
      "filesystem".toList <:+: msg.toList :=
  create_sandbox_backend_unimplemented "modal" (by decide)
    [("type", PyVal.pstr "modal")] rfl

/-- C7: for every input that is not a dictionary, `create_sandbox_backend`
fails, and the error message names the actual type received. -/
theorem create_sandbox_backend_not_dict (config : PyVal)
    (h : ∀ entries, config ≠ PyVal.pdict entries) :
    create_sandbox_backend config =
      Except.error (PyError.valueError (not_dict_msg config)) ∧
    (pyTypeName config).toList <:+: (not_dict_msg config).toList := by
  constructor
  · cases config <;> first | rfl | exact absurd rfl (h _)
  · have hsplit : (not_dict_msg config).toList
        = "sandbox_config must be a dictionary, got ".toList
          ++ (pyTypeName config).toList := by
      simp [not_dict_msg, String.toList, String.data_append]
    rw [hsplit]
    exact (List.suffix_append _ _).isInfix

theorem create_sandbox_backend_not_dict_witness :
    create_sandbox_backend (PyVal.pint 5) =
      Except.error (PyError.valueError (not_dict_msg (PyVal.pint 5))) ∧
    (pyTypeName (PyVal.pint 5)).toList <:+: (not_dict_msg (PyVal.pint 5)).toList :=
  create_sandbox_backend_not_dict (PyVal.pint 5) (fun _ hc => by cases hc)

theorem create_isOk_iff (entries : List (String × PyVal)) :
    exceptIsOk (create_sandbox_backend (PyVal.pdict entries)) = true ↔
      pyDictGet entries "type" PyVal.pnone = PyVal.pstr "filesystem" := by
  rcases hv : pyDictGet entries "type" PyVal.pnone with s | n | b | _ | es | xs <;>
    simp only [create_sandbox_backend, hv] <;>
    split_ifs with h1 h2 h3 h4 h5 h6 <;>
    simp_all [exceptIsOk, pyFalsy, pyEqStr, String.isEmpty_iff]

theorem create_errors_valueError (config : PyVal) :
    ∀ e, create_sandbox_backend config = Except.error e →
      PyError.isValueError e = true := by
  cases config <;>
    first
      | (intro e he; cases he; rfl)
      | (simp only [create_sandbox_backend]
         split_ifs <;> intro e he <;> cases he <;> rfl)

theorem create_st_eq (config : PyVal) :
    create_sandbox_backend_st config = (create_sandbox_backend config, config) := by
  cases config <;>
    first
      | rfl
      | (simp only [create_sandbox_backend, create_sandbox_backend_st, pyDictGetSt]
         split_ifs <;> rfl)

/-- C10: `create_sandbox_backend` returns normally exactly when the input
is a dictionary whose `type` value equals "filesystem"; every failing
branch raises a `ValueError` and no other exception class; and the input
configuration is never mutated (the state-threaded factory returns the
configuration unchanged). -/
theorem create_sandbox_backend_contract (config : PyVal) :
    (exceptIsOk (create_sandbox_backend config) = true ↔
      ∃ entries, config = PyVal.pdict entries ∧
        pyDictGet entries "type" PyVal.pnone = PyVal.pstr "filesystem") ∧
    (∀ e, create_sandbox_backend config = Except.error e →
      PyError.isValueError e = true) ∧
    create_sandbox_backend_st config = (create_sandbox_backend config, config) := by
  refine ⟨?_, create_errors_valueError config, create_st_eq config⟩
  cases config with
  | pdict entries =>
    rw [create_isOk_iff]
    constructor
    · intro hg
      exact ⟨entries, rfl, hg⟩
    · rintro ⟨es, hes, hg⟩
      injection hes with h'
      subst h'
      exact hg
  | pstr s => simp [create_sandbox_backend, exceptIsOk]
  | pint n => simp [create_sandbox_backend, exceptIsOk]
  | pbool b => simp [create_sandbox_backend, exceptIsOk]
  | pnone => simp [create_sandbox_backend, exceptIsOk]
  | plist xs => simp [create_sandbox_backend, exceptIsOk]

theorem create_sandbox_backend_contract_witness :
    exceptIsOk (create_sandbox_backend
      (PyVal.pdict [("type", PyVal.pstr "filesystem")])) = true :=
  (create_sandbox_backend_contract
      (PyVal.pdict [("type", PyVal.pstr "filesystem")])).1.mpr
    ⟨[("type", PyVal.pstr "filesystem")], rfl, rfl⟩

namespace Filesystem

/-- C2: for every command whose execution exceeds the given timeout, the
filesystem backend's `execute` terminates the process and returns an
`ExecutionResult` with exit code 124 and an stderr message indicating the
command timed out; `execute` is total, so no error is raised. -/
theorem execute_timeout_result (shell : String → ShellRun) (command : String)
    (t : Nat) (h : t < (shell command).duration) :
    (execute shell command (some t)).exit_code = 124 ∧
    "timed out".toList <:+: (execute shell command (some t)).stderr.toList := by
  have he : execute shell command (some t) =
      { exit_code := 124, stdout := "", stderr := timeout_msg t } := by
    simp only [execute]
    rw [if_pos h]
  rw [he]
  refine ⟨rfl, ?_⟩
  have hsplit : (timeout_msg t).toList
      = "Command timed out after ".toList
        ++ ((toString t).toList ++ " seconds".toList) := by
    simp [timeout_msg, String.toList, String.data_append, List.append_assoc]
  rw [hsplit]
  exact (by decide : "timed out".toList <:+: "Command timed out after ".toList).trans
    (List.prefix_append _ _).isInfix

theorem execute_timeout_result_witness :
    (execute (fun _ => ⟨0, "", "", 10⟩) "sleep 10" (some 1)).exit_code = 124 ∧
    "timed out".toList <:+:
      (execute (fun _ => ⟨0, "", "", 10⟩) "sleep 10" (some 1)).stderr.toList :=
  execute_timeout_result (fun _ => ⟨0, "", "", 10⟩) "sleep 10" 1 (by decide)

/-- C3: when the command name cannot be resolved by the shell, `execute`
returns an `ExecutionResult` with exit code 127 (in particular nonzero);
being a total function into `ExecutionResult`, `execute` communicates the
failure only through the returned record and can propagate no exception. -/
theorem execute_unresolved_result (shell : String → ShellRun) (command : String)
    (timeout : Option Nat) (h : shell command = unresolvedRun command) :
    (execute shell command timeout).exit_code = 127 ∧
    (execute shell command timeout).exit_code ≠ 0 := by
  have he : execute shell command timeout =
      { exit_code := 127, stdout := "",
        stderr := "/bin/sh: " ++ command ++ ": command not found" } := by
    cases timeout with
    | none => simp [execute, h, unresolvedRun]
    | some t =>
      simp only [execute, h, unresolvedRun]
      rw [if_neg (by simp)]
  rw [he]
  refine ⟨rfl, ?_⟩
  show (127 : Int) ≠ 0
  decide

theorem execute_unresolved_result_witness :
    (execute (fun c => unresolvedRun c) "nonexistent_command_xyz123" none).exit_code
        = 127 ∧
    (execute (fun c => unresolvedRun c) "nonexistent_command_xyz123" none).exit_code
        ≠ 0 :=
  execute_unresolved_result (fun c => unresolvedRun c)
    "nonexistent_command_xyz123" none rfl

/-- C8: for every command that completes within the timeout (or with no
timeout given), the `ExecutionResult` reports the process's real exit
status, stdout and stderr verbatim. -/
theorem execute_normal_completion (shell : String → ShellRun) (command : String)
    (timeout : Option Nat)
    (h : ∀ t, timeout = some t → (shell command).duration ≤ t) :
    execute shell command timeout =
      { exit_code := (shell command).exit_code,
        stdout := (shell command).stdout,
        stderr := (shell command).stderr } := by
  cases timeout with
  | none => rfl
  | some t =>
    have ht := h t rfl
    simp only [execute]
    rw [if_neg (Nat.not_lt.mpr ht)]

theorem execute_normal_completion_witness :
    execute (fun _ => ⟨42, "", "", 0⟩) "exit 42" (some 30) =
      { exit_code := 42, stdout := "", stderr := "" } :=
  execute_normal_completion (fun _ => ⟨42, "", "", 0⟩) "exit 42" (some 30)
    (fun t ht => by cases ht; decide)

/-- C9: for every relative path and text content, `write_file` followed by
`read_file` at that path returns exactly the written content, and after the
write `list_files` includes the written relative path. -/
theorem write_read_roundtrip (fs : FsState) (path content : String) :
    read_file (write_file fs path content) path = some content ∧
    path ∈ list_files (write_file fs path content) := by
  constructor
  · simp [read_file, write_file, List.lookup]
  · simp [list_files, write_file]

end Filesystem
